import Mathlib

/-
Shallow embedding of mktmkr (src/main.rs): a mempool-watching trading bot
that classifies pending Uniswap V2 router transactions as buys of a tracked
token and submits countertrade sells.

Modelling conventions:
- Bytes are `Nat` values (0..255); addresses are 20-byte lists; U256 values
  are `Nat` with explicit bounds where Rust would panic on overflow.
- Rust panics (slice out of bounds, `as_usize`/`as_u128` overflow,
  checked-add overflow of `U256`) are `Except.error Fault.crash`;
  network/provider errors propagated by `?` are `Except.error Fault.net`;
  ABI encoding errors are `Except.error Fault.encoding`.
- `f64` arithmetic (`execute_sell` line 100) is modelled exactly as IEEE-754
  binary64 round-to-nearest-even with a 53-bit significand and unbounded
  exponent range (the values arising here stay far inside the normal range,
  so exponent overflow and subnormals do not occur); an `F64` value is a
  dyadic `m * 2^e` with `m : Nat` (all values in this program are
  nonnegative).
- External effects (provider stream, fetch, sign, send, receipt, clock) are
  passed in explicitly: each loop iteration carries the outcome its external
  calls would produce.
-/

namespace Mktmkr

/-- Terminal faults of a run: `crash` is a Rust panic, `net` a provider or
signing error propagated with `?`, `encoding` an ABI encoding error. -/
inductive Fault where
  | crash : Fault
  | net : Fault
  | encoding : Fault
deriving DecidableEq, Repr

/-- Floor of log2 with explicit fuel (structural recursion so the kernel can
evaluate it); `log2fuel f n` is floor (log2 n) whenever `n ≤ 2 ^ f` roughly,
and we always call it with `f = n`. -/
def log2fuel : Nat → Nat → Nat
  | 0, _ => 0
  | f + 1, n => if n ≤ 1 then 0 else log2fuel f (n / 2) + 1

/-- Floor of log2 of a positive natural. -/
def floorLog2Nat (n : Nat) : Nat := log2fuel n n

/-- Smallest `m` with `d ≤ n * 2 ^ m`, computed with fuel (call with enough
fuel, e.g. `d` when `1 ≤ n`). -/
def clogInvFuel : Nat → Nat → Nat → Nat
  | 0, _, _ => 0
  | f + 1, n, d => if d ≤ n then 0 else clogInvFuel f (n * 2) d + 1

/-- Round the rational `num / den` to the nearest integer, ties to even. -/
def roundHalfEvenNat (num den : Nat) : Nat :=
  let w := num / den
  let r := num % den
  if 2 * r < den then w
  else if den < 2 * r then w + 1
  else if w % 2 = 0 then w else w + 1

/-- A nonnegative IEEE-754 binary64 value, represented exactly as the dyadic
rational `m * 2 ^ e`. -/
structure F64 where
  m : Nat
  e : Int
deriving DecidableEq, Repr

/-- Round the nonnegative rational `n / d` to the nearest binary64 value
(round to nearest, ties to even, 53-bit significand). -/
def roundRatF64 (n d : Nat) : F64 :=
  if n = 0 ∨ d = 0 then ⟨0, 0⟩
  else
    let e : Int := if d ≤ n then (floorLog2Nat (n / d) : Int) else -(clogInvFuel d n d : Int)
    let shift : Int := 52 - e
    let scaled : Nat × Nat :=
      if 0 ≤ shift then (n * 2 ^ shift.toNat, d) else (n, d * 2 ^ (-shift).toNat)
    ⟨roundHalfEvenNat scaled.1 scaled.2, e - 52⟩

/-- Conversion `u128 as f64` (Rust rounds to nearest, ties to even). -/
def F64.ofNat (n : Nat) : F64 := roundRatF64 n 1

/-- IEEE-754 multiplication: exact product, then one rounding. -/
def F64.mul (a b : F64) : F64 :=
  let e := a.e + b.e
  if 0 ≤ e then roundRatF64 (a.m * b.m * 2 ^ e.toNat) 1
  else roundRatF64 (a.m * b.m) (2 ^ (-e).toNat)

/-- IEEE-754 division: exact quotient, then one rounding. -/
def F64.div (a b : F64) : F64 :=
  let e := a.e - b.e
  if 0 ≤ e then roundRatF64 (a.m * 2 ^ e.toNat) b.m
  else roundRatF64 a.m (b.m * 2 ^ (-e).toNat)

/-- Conversion `f64 as u128` (Rust truncates toward zero and saturates at the
bounds of the target type). -/
def F64.toU128sat (a : F64) : Nat :=
  let fl := if 0 ≤ a.e then a.m * 2 ^ a.e.toNat else a.m / 2 ^ (-a.e).toNat
  min fl (2 ^ 128 - 1)

/-- U256::as_u128 — panics when the value does not fit in 128 bits. -/
def as_u128 (n : Nat) : Except Fault Nat :=
  if n < 2 ^ 128 then Except.ok n else Except.error Fault.crash

/-- U256::as_usize — panics when the value does not fit in a 64-bit usize. -/
def as_usize (n : Nat) : Except Fault Nat :=
  if n < 2 ^ 64 then Except.ok n else Except.error Fault.crash

/-- U256 addition (`+=` on `total_sold`) — the uint crate panics on
overflow past 2^256. -/
def u256_add (a b : Nat) : Except Fault Nat :=
  if a + b < 2 ^ 256 then Except.ok (a + b) else Except.error Fault.crash

/-- Rust slice indexing `xs[a..b]` — panics when `a > b` or `b > xs.len()`. -/
def slice (xs : List Nat) (a b : Nat) : Except Fault (List Nat) :=
  if a ≤ b ∧ b ≤ xs.length then Except.ok ((xs.drop a).take (b - a))
  else Except.error Fault.crash

/-- U256::from_big_endian on a byte slice. -/
def from_big_endian (bytes : List Nat) : Nat :=
  bytes.foldl (fun acc b => acc * 256 + b) 0

/-- Big-endian 32-byte ABI word of a U256 value. -/
def to_be32 (n : Nat) : List Nat :=
  (List.range 32).map (fun i => n / 256 ^ (31 - i) % 256)

/-- ABI word of an address: 12 zero bytes of left padding, then 20 bytes. -/
def addr_word (a : List Nat) : List Nat := List.replicate 12 0 ++ a

/-- UNISWAP_V2_ROUTER = 0x7a250d5630B4cF539739dF2C5dAcb4c659F2488D. -/
def router_addr : List Nat :=
  [0x7a, 0x25, 0x0d, 0x56, 0x30, 0xb4, 0xcf, 0x53, 0x97, 0x39,
   0xdf, 0x2c, 0x5d, 0xac, 0xb4, 0xc6, 0x59, 0xf2, 0x48, 0x8d]

/-- WETH_ADDRESS = 0xC02aaA39b223FE8D0A0e5C4F27eAD9083C756Cc2. -/
def weth_addr : List Nat :=
  [0xc0, 0x2a, 0xaa, 0x39, 0xb2, 0x23, 0xfe, 0x8d, 0x0a, 0x0e,
   0x5c, 0x4f, 0x27, 0xea, 0xd9, 0x08, 0x3c, 0x75, 0x6c, 0xc2]

/-- The pieces of an observed pending transaction that `is_token_buy` reads:
destination (`to`, named `to_addr` here since `to` is reserved in Lean), calldata and attached native value. -/
structure Transaction where
  to_addr : Option (List Nat)
  input : List Nat
  value : Nat
deriving DecidableEq, Repr

/-- The configuration fields of the `TradingBot` struct that the core logic
reads (provider/wallet handles are external capabilities; of the wallet only
its address is observable to the logic modelled here). -/
structure TradingBot where
  token_address : List Nat
  router : List Nat
  weth : List Nat
  wallet_address : List Nat
  sell_percentage : F64
  target_eth : Nat
deriving DecidableEq, Repr

/-- TradingBot::new line 52: `total_sold: Arc::new(Mutex::new(U256::zero()))`. -/
def initial_total_sold : Nat := 0

/-- Function selector for swapExactETHForTokensSupportingFeeOnTransferTokens. -/
def SWAP_ETH_FOR_TOKENS : List Nat := [0x7f, 0xf3, 0x6a, 0xb5]

/-- Function selector for swapExactTokensForTokensSupportingFeeOnTransferTokens. -/
def SWAP_TOKENS_FOR_TOKENS : List Nat := [0x38, 0xed, 0x17, 0x39]

/-- Line 87: the hardcoded offset of the path-length word for the matched
selector. -/
def buy_path_offset (input : List Nat) : Nat :=
  if SWAP_ETH_FOR_TOKENS.isPrefixOf input then 164 else 196

deriving instance DecidableEq for Except

/-- is_token_buy (lines 74–97). Returns the buy amount of a matched buy of
the tracked token, `none` on no match, and a fault where the Rust code would
panic. Line 89 slices `tx.input[tx.input.len() - 20..]`; it is only reached
once the line-88 slice has established `tx.input.len() ≥ 196`, so modelling
the index `len - 20` with truncated Nat subtraction agrees with Rust at every
reachable input. -/
def is_token_buy (bot : TradingBot) (tx : Transaction) : Except Fault (Option Nat) :=
  if tx.to_addr ≠ some bot.router then Except.ok none
  else if SWAP_ETH_FOR_TOKENS.isPrefixOf tx.input ∨ SWAP_TOKENS_FOR_TOKENS.isPrefixOf tx.input then
    match slice tx.input (buy_path_offset tx.input) (buy_path_offset tx.input + 32) with
    | Except.error f => Except.error f
    | Except.ok len_bytes =>
      match as_usize (from_big_endian len_bytes) with
      | Except.error f => Except.error f
      | Except.ok _path_length =>
        match slice tx.input (tx.input.length - 20) tx.input.length with
        | Except.error f => Except.error f
        | Except.ok last_token =>
          if last_token = bot.token_address then Except.ok (some tx.value)
          else Except.ok none
  else Except.ok none

/-- ethabi parameter tokens, restricted to the kinds this program builds
(Token::Uint, Token::Address, Token::Array). -/
inductive Token where
  | uint : Nat → Token
  | address : List Nat → Token
  | array : List Token → Token

/-- Collect the addresses of a token list, failing if any entry is not an
address token (ethabi's type check of a `Token::Array` against
`ParamType::Array(Address)`). -/
def addr_list : List Token → Option (List (List Nat))
  | [] => some []
  | Token.address a :: rest =>
    match addr_list rest with
    | some tail => some (a :: tail)
    | none => none
  | _ => none

/-- An encoded contract call as produced by `encode_function_data`
(lines 175–192): the function's name stands for its 4-byte selector (the
leading bytes of keccak256 of the canonical signature, computed by ethabi
from the name and the declared parameter types), and `data` is the ABI
serialization of the arguments that follows the selector. -/
structure EncodedCall where
  name : String
  data : List Nat
deriving DecidableEq, Repr

/-- ethabi `Function::encode_input` for the fixed parameter list declared in
`encode_function_data` (uint256, uint256, address[], address, uint256): type
check the tokens, then serialize head words (with the dynamic array referred
to by its offset, 160 = 5 words) followed by the array tail. Returns an
encoding error exactly when the tokens do not match the declared types. -/
def encode_input (tokens : List Token) : Except Fault (List Nat) :=
  match tokens with
  | [Token.uint amount_in, Token.uint amount_out_min, Token.array path,
     Token.address recipient, Token.uint deadline] =>
    match addr_list path with
    | some addrs =>
      Except.ok (to_be32 amount_in ++ to_be32 amount_out_min ++ to_be32 160 ++
        addr_word recipient ++ to_be32 deadline ++ to_be32 addrs.length ++
        (addrs.map addr_word).flatten)
    | none => Except.error Fault.encoding
  | _ => Except.error Fault.encoding

/-- encode_function_data (lines 175–192). -/
def encode_function_data (fname : String) (tokens : List Token) : Except Fault EncodedCall :=
  match encode_input tokens with
  | Except.error f => Except.error f
  | Except.ok data => Except.ok ⟨fname, data⟩

/-- Line 100: `(buy_amount.as_u128() as f64 * self.sell_percentage / 100.0) as u128`.
`as_u128` panics for values of 128 bits or more; the rest is IEEE-754 binary64
arithmetic followed by a saturating truncation back to u128. -/
def sell_amount_calc (sell_percentage : F64) (buy_amount : Nat) : Except Fault Nat :=
  match as_u128 buy_amount with
  | Except.error f => Except.error f
  | Except.ok b =>
    Except.ok (F64.toU128sat (F64.div (F64.mul (F64.ofNat b) sell_percentage) (F64.ofNat 100)))

/-- Line 103: `U256::from(Instant::now().elapsed().as_secs() + 300)`.
`Instant::now().elapsed()` is the time elapsed since that very instant was
created, i.e. 0 seconds (up to scheduling jitter) — not the current chain
time; the parameter is `elapsed + 300` for elapsed seconds of that instant. -/
def deadline_calc (elapsed_secs : Nat) : Nat := elapsed_secs + 300

/-- Lines 105–117: the countertrade call built by `execute_sell`. -/
def build_swap_call (bot : TradingBot) (sell_amount deadline : Nat) : Except Fault EncodedCall :=
  encode_function_data "swapExactTokensForETHSupportingFeeOnTransferTokens"
    [Token.uint sell_amount, Token.uint 0,
     Token.array [Token.address bot.token_address, Token.address bot.weth],
     Token.address bot.wallet_address, Token.uint deadline]

/-- Lines 128–134: the Volume Tracker update — under the `total_sold` mutex,
add the sell amount to the running total and compare the new total against
the target (`*total_sold >= self.target_eth`, the printed target-reached
signal). The mutex serializes concurrent callers, so a run is a sequence of
these atomic updates. -/
def add_and_check (target total amount : Nat) : Except Fault (Nat × Bool) :=
  match u256_add total amount with
  | Except.error f => Except.error f
  | Except.ok t => Except.ok (t, decide (target ≤ t))

/-- Outcomes of the external calls one `execute_sell` invocation makes:
the clock reading used for the deadline, the wallet's `sign_transaction`,
the provider's `send_raw_transaction`, and `get_transaction_receipt`
(`Except.ok true` models `Ok(Some(receipt))`, `Except.ok false` models
`Ok(None)`). -/
structure ExecEnv where
  elapsed_secs : Nat
  sign : Except Fault Unit
  send : Except Fault Unit
  receipt : Except Fault Bool
deriving DecidableEq, Repr

/-- execute_sell (lines 99–138). Returns the submitted call, the new running
total, and the target-reached signal of this invocation (false when no
receipt arrived and the update was skipped). Every `?` fault propagates. -/
def execute_sell (bot : TradingBot) (env : ExecEnv) (buy_amount total : Nat) :
    Except Fault (EncodedCall × Nat × Bool) :=
  match sell_amount_calc bot.sell_percentage buy_amount with
  | Except.error f => Except.error f
  | Except.ok sell_amount =>
    match build_swap_call bot sell_amount (deadline_calc env.elapsed_secs) with
    | Except.error f => Except.error f
    | Except.ok swap_call =>
      match env.sign with
      | Except.error f => Except.error f
      | Except.ok _ =>
        match env.send with
        | Except.error f => Except.error f
        | Except.ok _ =>
          match env.receipt with
          | Except.error f => Except.error f
          | Except.ok false => Except.ok (swap_call, total, false)
          | Except.ok true =>
            match add_and_check bot.target_eth total sell_amount with
            | Except.error f => Except.error f
            | Except.ok (t, reached) => Except.ok (swap_call, t, reached)

/-- One item of the pending-transaction stream together with the outcomes of
the external calls made while processing it: the expiry-clock comparison
`Instant::now() >= self.expiry_time` at the head of the iteration, the result
of `get_transaction(tx_hash)`, and the execution environment used if a sell
triggers. -/
structure Iteration where
  expired : Bool
  fetched : Except Fault (Option Transaction)
  env : ExecEnv
deriving DecidableEq, Repr

/-- The body of the `while let` loop of `monitor_mempool` (lines 59–68) for
one stream item. `Except.ok none` is the `break` on expiry, `Except.ok
(some t)` continues with the new running total, and an error aborts the whole
run (the `?` operators on lines 64 and 66). -/
def monitor_step (bot : TradingBot) (it : Iteration) (total : Nat) : Except Fault (Option Nat) :=
  if it.expired then Except.ok none
  else
    match it.fetched with
    | Except.error f => Except.error f
    | Except.ok none => Except.ok (some total)
    | Except.ok (some tx) =>
      match is_token_buy bot tx with
      | Except.error f => Except.error f
      | Except.ok none => Except.ok (some total)
      | Except.ok (some buy_amount) =>
        match execute_sell bot it.env buy_amount total with
        | Except.error f => Except.error f
        | Except.ok (_, t, _) => Except.ok (some t)

/-- monitor_mempool (lines 56–72) over a finite stream of pending
transactions, threading the `total_sold` state (the mutex makes the loop's
accesses to it a serialized sequence). Returns the final total on normal
termination (stream end or expiry break), or the fault that aborted the
run. -/
def monitor_mempool (bot : TradingBot) : List Iteration → Nat → Except Fault Nat
  | [], total => Except.ok total
  | it :: rest, total =>
    match monitor_step bot it total with
    | Except.error f => Except.error f
    | Except.ok none => Except.ok total
    | Except.ok (some t) => monitor_mempool bot rest t

/-- Run a sequence of successful Volume Tracker updates from a starting
total: the serialized history of `add_and_check` calls of a run. -/
def run_adds (target : Nat) : List Nat → Nat → Except Fault Nat
  | [], total => Except.ok total
  | a :: rest, total =>
    match add_and_check target total a with
    | Except.error f => Except.error f
    | Except.ok (t, _) => run_adds target rest t

/-- The trailing 20 bytes of a byte string — the field `is_token_buy`
compares against the tracked token (line 89); for a canonically ABI-encoded
swap call, whose trailing word is the path's last element, these are exactly
the path's final address. -/
def last20 (xs : List Nat) : List Nat := (xs.drop (xs.length - 20)).take 20

/-- The path-length word read at the signature-specific offset (line 88). -/
def path_len_field (input : List Nat) : Nat :=
  from_big_endian ((input.drop (buy_path_offset input)).take 32)

/-- A sample tracked-token address (20 bytes). -/
def token_sample : List Nat := List.replicate 20 0x11

/-- A sample wallet address (20 bytes). -/
def wallet_sample : List Nat := List.replicate 20 0x22

/-- A sample address different from the tracked token. -/
def other_token : List Nat := List.replicate 20 0x33

/-- A bot configured as in `main` (sell_percentage = 10.0), tracking
`token_sample`. -/
def bot1 : TradingBot := ⟨token_sample, router_addr, weth_addr, wallet_sample, F64.ofNat 10, 100⟩

/-- A bot with sell_percentage = 50.0 and target 120. -/
def bot9 : TradingBot := ⟨token_sample, router_addr, weth_addr, wallet_sample, F64.ofNat 50, 120⟩

/-- Canonical calldata of swapExactETHForTokensSupportingFeeOnTransferTokens
with a 2-element path ending in `token_sample`: selector, 5 head words (the
path-length word therefore sits at byte offset 164), then the path words
whose last 32-byte word carries the final address; 228 bytes in all. -/
def calldata_eth_buy : List Nat :=
  SWAP_ETH_FOR_TOKENS ++ to_be32 0 ++ to_be32 0 ++ to_be32 0 ++ to_be32 0 ++ to_be32 0 ++
    to_be32 2 ++ addr_word token_sample

/-- The same layout with the path ending in `other_token` instead. -/
def calldata_eth_wrong : List Nat :=
  SWAP_ETH_FOR_TOKENS ++ to_be32 0 ++ to_be32 0 ++ to_be32 0 ++ to_be32 0 ++ to_be32 0 ++
    to_be32 2 ++ addr_word other_token

/-- Canonical calldata of swapExactTokensForTokensSupportingFeeOnTransferTokens
with declared amountIn = 500 (the first parameter word, bytes 4..36), 6 head
words (path-length word at byte offset 196), and a path whose last word
carries `token_sample`; 260 bytes in all. -/
def calldata_tok_buy : List Nat :=
  SWAP_TOKENS_FOR_TOKENS ++ to_be32 500 ++ to_be32 0 ++ to_be32 0 ++ to_be32 0 ++ to_be32 0 ++
    to_be32 0 ++ to_be32 2 ++ addr_word token_sample

/-- An ETH-variant buy of the tracked token with 7 wei attached. -/
def tx_eth_buy : Transaction := ⟨some router_addr, calldata_eth_buy, 7⟩

/-- An ETH-variant buy of the tracked token with 100 wei attached. -/
def tx_eth_buy100 : Transaction := ⟨some router_addr, calldata_eth_buy, 100⟩

/-- A router transaction whose calldata is just the 4-byte buy selector. -/
def tx_truncated : Transaction := ⟨some router_addr, SWAP_ETH_FOR_TOKENS, 0⟩

/-- A token-to-token buy of the tracked token: declared amountIn = 500 in the
calldata, no native value attached. -/
def tx_tok_buy : Transaction := ⟨some router_addr, calldata_tok_buy, 0⟩

/-- A buy-selector transaction whose path ends in a different token. -/
def tx_wrong_token : Transaction := ⟨some router_addr, calldata_eth_wrong, 7⟩

/-- An execution environment in which every external call succeeds and a
receipt arrives. -/
def env_ok : ExecEnv := ⟨0, Except.ok (), Except.ok (), Except.ok true⟩

/-- An execution environment whose signing step fails with a network fault. -/
def env_sign_fail : ExecEnv := ⟨0, Except.error Fault.net, Except.ok (), Except.ok true⟩

/-- A live (non-expired) stream item carrying a qualifying 100-wei buy. -/
def iter_buy100 : Iteration := ⟨false, Except.ok (some tx_eth_buy100), env_ok⟩

/-- A live stream item whose transaction fetch fails with a network fault. -/
def iter_fetch_fail : Iteration := ⟨false, Except.error Fault.net, env_ok⟩

/-- A stream item arriving after the run deadline has passed (its fetch
outcome is deliberately a fault, to witness that it is never consulted). -/
def iter_expired : Iteration := ⟨true, Except.error Fault.net, env_ok⟩

set_option maxRecDepth 10000

/-- The line-89 slice of the trailing 20 bytes never faults and yields
`last20`. -/
theorem slice_last20 (xs : List Nat) :
    slice xs (xs.length - 20) xs.length = Except.ok (last20 xs) := by
  unfold slice last20
  rw [if_pos ⟨Nat.sub_le _ _, le_refl _⟩]
  rcases le_or_lt 20 xs.length with h | h
  · rw [Nat.sub_sub_self h]
  · rw [Nat.sub_eq_zero_of_le h.le, Nat.sub_zero, List.drop_zero, List.take_length,
      List.take_of_length_le h.le]

/-- A successful U256 addition is exact. -/
theorem u256_add_ok {a b c : Nat} (h : u256_add a b = Except.ok c) : c = a + b := by
  unfold u256_add at h
  split at h
  · simp only [Except.ok.injEq] at h
    omega
  · simp at h

/-- A successful Volume Tracker update adds exactly the given amount, and its
signal is the comparison of the new total against the target. -/
theorem add_and_check_ok {target total a t : Nat} {r : Bool}
    (h : add_and_check target total a = Except.ok (t, r)) :
    t = total + a ∧ (r = true ↔ target ≤ t) := by
  unfold add_and_check at h
  cases heq : u256_add total a with
  | error f => rw [heq] at h; simp at h
  | ok t1 =>
    rw [heq] at h
    simp only [Except.ok.injEq, Prod.mk.injEq] at h
    obtain ⟨ht, hr⟩ := h
    subst ht
    refine ⟨u256_add_ok heq, ?_⟩
    rw [← hr]
    simp [decide_eq_true_iff]

/-- A sequence of successful updates accumulates exactly the sum of the
amounts. -/
theorem run_adds_sum (target : Nat) (amounts : List Nat) :
    ∀ total t, run_adds target amounts total = Except.ok t → t = total + amounts.sum := by
  induction amounts with
  | nil =>
    intro total t h
    unfold run_adds at h
    simp only [Except.ok.injEq] at h
    simp [← h]
  | cons a rest ih =>
    intro total t h
    unfold run_adds at h
    cases hac : add_and_check target total a with
    | error f => rw [hac] at h; simp at h
    | ok p =>
      obtain ⟨t1, r⟩ := p
      rw [hac] at h
      have h1 := (add_and_check_ok hac).1
      have h2 := ih t1 t h
      simp [h2, h1, List.sum_cons]
      omega

/-- C1: truncated calldata that matches a buy selector does NOT classify as
"no match" — the hardcoded-offset slice `tx.input[164..196]` (line 88) is out
of bounds and the classifier panics. The spec requires graceful rejection
("no match, never a fault"), so this refutes the claim against the code: a
4-byte calldata consisting of just the swapExactETHForTokens... selector,
sent to the router, crashes `is_token_buy`. -/
theorem c1_truncated_calldata_faults :
    is_token_buy bot1 tx_truncated = Except.error Fault.crash := by decide

/-- C2: the sell size is NOT `floor(buyAmount * p / 100)` over the full
256-bit domain. The code (line 100) converts with `as_u128`, which panics for
buyAmount ≥ 2^128, and routes the product through f64, which loses precision:
at buyAmount = 2^64 + 1 with p = 100 the code yields 2^64 although the exact
floor is 2^64 + 1. The small-scale scenario (1000 at 10% = 100) does hold. -/
theorem c2_sell_size_not_exact :
    sell_amount_calc (F64.ofNat 10) 1000 = Except.ok 100 ∧
    sell_amount_calc (F64.ofNat 10) (2 ^ 128) = Except.error Fault.crash ∧
    sell_amount_calc (F64.ofNat 100) (2 ^ 64 + 1) = Except.ok (2 ^ 64) ∧
    (2 ^ 64 + 1) * 100 / 100 = 2 ^ 64 + 1 := by
  exact ⟨by decide, by decide, by decide, by decide⟩

/-- C3: for the token-to-token variant the classifier does NOT return the
declared input-amount field — it returns the transaction's attached native
value (line 92 returns `tx.value` for both selectors). Witnessed by a
token-to-token buy with declared amountIn = 500 and attached value 0, which
classifies as a buy of 0. -/
theorem c3_token_variant_returns_attached_value :
    is_token_buy bot1 tx_tok_buy = Except.ok (some 0) ∧
    tx_tok_buy.value = 0 ∧
    from_big_endian ((tx_tok_buy.input.drop 4).take 32) = 500 := by
  exact ⟨by decide, by decide, by decide⟩

/-- C4: a match is returned only when the path's final address (the trailing
20 calldata bytes, which in the canonical layout carry the path's last
element) equals the tracked token; and any selector-matching calldata that is
long enough to decode (so the line-88 slice and `as_usize` do not panic)
whose final address differs from the tracked token yields "no match". -/
theorem c4_match_only_tracked_token :
    (∀ bot tx v, is_token_buy bot tx = Except.ok (some v) →
      last20 tx.input = bot.token_address) ∧
    (∀ bot tx,
      (SWAP_ETH_FOR_TOKENS.isPrefixOf tx.input ∨ SWAP_TOKENS_FOR_TOKENS.isPrefixOf tx.input) →
      buy_path_offset tx.input + 32 ≤ tx.input.length →
      path_len_field tx.input < 2 ^ 64 →
      last20 tx.input ≠ bot.token_address →
      is_token_buy bot tx = Except.ok none) := by
  constructor
  · intro bot tx v h
    unfold is_token_buy at h
    by_cases h1 : tx.to_addr ≠ some bot.router
    · rw [if_pos h1] at h
      simp at h
    · rw [if_neg h1] at h
      by_cases h2 : (SWAP_ETH_FOR_TOKENS.isPrefixOf tx.input ∨
          SWAP_TOKENS_FOR_TOKENS.isPrefixOf tx.input)
      · rw [if_pos h2] at h
        cases hs : slice tx.input (buy_path_offset tx.input) (buy_path_offset tx.input + 32) with
        | error f => simp only [hs] at h; exact Except.noConfusion h
        | ok len_bytes =>
          simp only [hs] at h
          cases hu : as_usize (from_big_endian len_bytes) with
          | error f => simp only [hu] at h; exact Except.noConfusion h
          | ok pl =>
            simp only [hu, slice_last20] at h
            by_cases h3 : last20 tx.input = bot.token_address
            · exact h3
            · rw [if_neg h3] at h
              simp at h
      · rw [if_neg h2] at h
        simp at h
  · intro bot tx hsel hlen hplen hneq
    have hs : slice tx.input (buy_path_offset tx.input) (buy_path_offset tx.input + 32) =
        Except.ok ((tx.input.drop (buy_path_offset tx.input)).take 32) := by
      unfold slice
      rw [if_pos ⟨Nat.le_add_right _ _, hlen⟩, Nat.add_sub_cancel_left]
    have hplen' : from_big_endian ((tx.input.drop (buy_path_offset tx.input)).take 32) <
        2 ^ 64 := hplen
    have hu : as_usize (from_big_endian ((tx.input.drop (buy_path_offset tx.input)).take 32)) =
        Except.ok (from_big_endian ((tx.input.drop (buy_path_offset tx.input)).take 32)) := by
      unfold as_usize
      rw [if_pos hplen']
    unfold is_token_buy
    by_cases h1 : tx.to_addr ≠ some bot.router
    · rw [if_pos h1]
    · simp only [if_neg h1, if_pos hsel, hs, hu, slice_last20, if_neg hneq]

/-- C4 witness: the classified 7-wei buy ends in the tracked token, and the
same calldata with a different final address is rejected. -/
theorem c4_witness :
    last20 tx_eth_buy.input = bot1.token_address ∧
    is_token_buy bot1 tx_wrong_token = Except.ok none :=
  ⟨c4_match_only_tracked_token.1 bot1 tx_eth_buy 7 (by decide),
   c4_match_only_tracked_token.2 bot1 tx_wrong_token (by decide) (by decide) (by decide)
     (by decide)⟩

/-- C5: the running total starts at zero, every successful `add_and_check`
update is non-decreasing, and a run of successful updates from zero ends at
exactly the sum of the amounts of the successful calls. -/
theorem c5_volume_tracker :
    initial_total_sold = 0 ∧
    (∀ target total amount t r, add_and_check target total amount = Except.ok (t, r) →
      total ≤ t) ∧
    (∀ target amounts t, run_adds target amounts 0 = Except.ok t → t = amounts.sum) := by
  refine ⟨rfl, ?_, ?_⟩
  · intro target total amount t r h
    have := (add_and_check_ok h).1
    omega
  · intro target amounts t h
    have := run_adds_sum target amounts 0 t h
    omega

/-- C5 witness: adding 50 at total 100 is non-decreasing, and the successful
run [100, 150] from zero ends at 250. -/
theorem c5_witness : (100 : Nat) ≤ 150 ∧ (250 : Nat) = [100, 150].sum :=
  ⟨c5_volume_tracker.2.1 120 100 50 150 true (by decide),
   c5_volume_tracker.2.2 120 [100, 150] 250 (by decide)⟩

/-- C6: every built countertrade is a call to
swapExactTokensForETHSupportingFeeOnTransferTokens encoding exactly:
amountIn = the computed sell amount, amountOutMin = 0, the path
[tracked token, WETH] (offset word 160, length word 2), recipient = the
executing wallet's address, and the deadline word. -/
theorem c6_countertrade_call (bot : TradingBot) (s d : Nat) :
    build_swap_call bot s d =
      Except.ok ⟨"swapExactTokensForETHSupportingFeeOnTransferTokens",
        to_be32 s ++ to_be32 0 ++ to_be32 160 ++ addr_word bot.wallet_address ++ to_be32 d ++
        to_be32 2 ++ (addr_word bot.token_address ++ addr_word bot.weth)⟩ := by
  simp [build_swap_call, encode_function_data, encode_input, addr_list]

/-- C7: the countertrade deadline is NOT an absolute future chain timestamp.
Line 103 computes `Instant::now().elapsed().as_secs() + 300`, the age of a
freshly-taken monotonic instant (0 seconds) plus 300 — so the parameter is
300, which as an absolute timestamp is 1970-01-01T00:05:00, far in the past
of any current chain time (e.g. 1760227200, October 2025). -/
theorem c7_deadline_not_future_chain_time :
    deadline_calc 0 = 300 ∧ deadline_calc 0 < 1760227200 := by decide

/-- C8: a fault in any step of an iteration aborts the entire run (the
remaining stream is never consumed); a failed transaction fetch is such a
fault; and a failed signing/submission inside `execute_sell` propagates as a
fault for any in-range buy amount. -/
theorem c8_network_faults_fatal :
    (∀ bot it total f rest, monitor_step bot it total = Except.error f →
      monitor_mempool bot (it :: rest) total = Except.error f) ∧
    (∀ bot it total f, it.expired = false → it.fetched = Except.error f →
      monitor_step bot it total = Except.error f) ∧
    (∀ bot env amt total f, amt < 2 ^ 128 → env.sign = Except.error f →
      execute_sell bot env amt total = Except.error f) := by
  refine ⟨?_, ?_, ?_⟩
  · intro bot it total f rest h
    unfold monitor_mempool
    rw [h]
  · intro bot it total f hexp hf
    simp [monitor_step, hexp, hf]
  · intro bot env amt total f hamt hsgn
    unfold execute_sell sell_amount_calc as_u128
    rw [if_pos hamt]
    simp [build_swap_call, encode_function_data, encode_input, addr_list, hsgn]

/-- C8 witness: a fetch fault on a live iteration kills the whole run, and a
signing fault inside execution is a run-fatal error. -/
theorem c8_witness :
    monitor_mempool bot9 [iter_fetch_fail] 0 = Except.error Fault.net ∧
    execute_sell bot9 env_sign_fail 100 0 = Except.error Fault.net :=
  ⟨c8_network_faults_fatal.1 bot9 iter_fetch_fail 0 Fault.net []
     (c8_network_faults_fatal.2.1 bot9 iter_fetch_fail 0 Fault.net rfl rfl),
   c8_network_faults_fatal.2.2 bot9 env_sign_fail 100 0 Fault.net (by decide) rfl⟩

/-- C9: the tracker signals target-reached exactly when the new total reaches
the target, and the signal does not stop the loop: three qualifying 100-wei
buys at 50% with target 120 all execute (sells of 50 each, loop runs to the
end of the stream with final total 150), the signal being false, false, true
across the three executions. -/
theorem c9_target_signal_and_loop_continues :
    (∀ target total amount t r, add_and_check target total amount = Except.ok (t, r) →
      (r = true ↔ target ≤ t)) ∧
    monitor_mempool bot9 [iter_buy100, iter_buy100, iter_buy100] 0 = Except.ok 150 ∧
    (execute_sell bot9 env_ok 100 0).map (fun x => (x.2.1, x.2.2)) = Except.ok (50, false) ∧
    (execute_sell bot9 env_ok 100 50).map (fun x => (x.2.1, x.2.2)) = Except.ok (100, false) ∧
    (execute_sell bot9 env_ok 100 100).map (fun x => (x.2.1, x.2.2)) = Except.ok (150, true) := by
  refine ⟨?_, by decide, by decide, by decide, by decide⟩
  intro target total amount t r h
  exact (add_and_check_ok h).2

/-- C9 witness: the signal is true on the call that takes the total from 100
to 150 past the target 120. -/
theorem c9_witness : (true = true ↔ (120 : Nat) ≤ 150) :=
  c9_target_signal_and_loop_continues.1 120 100 50 150 true (by decide)

/-- C10: when the deadline has already passed at the first stream item, the
loop breaks at once with total 0 — the result does not depend on the item's
fetch outcome (no fetch, classification or sell happens) nor on the rest of
the stream. -/
theorem c10_expired_before_processing (bot : TradingBot) (it : Iteration)
    (rest : List Iteration) (h : it.expired = true) :
    monitor_mempool bot (it :: rest) 0 = Except.ok 0 := by
  unfold monitor_mempool monitor_step
  simp [h]

/-- C10 witness: an expired first item whose fetch outcome is a fault still
ends the run immediately with total 0, so the fetch was never attempted. -/
theorem c10_witness : monitor_mempool bot9 [iter_expired] 0 = Except.ok 0 :=
  c10_expired_before_processing bot9 iter_expired [] rfl

end Mktmkr
